import Mathlib

/-
Verification development for the ai_memory repository.

Shallow embedding of the memory store and retrieval engine:
memory.py (data model), memory_redis.py (schema, deduplication check,
store and retrieve over the Redis vector index) and memory_manager.py
(the mem0-backed manager with validation and error handling).

External collaborators (the embedding provider, the Redis vector search
engine and the mem0 library) are modelled as explicit parameters: an
abstract embedding function, an abstract query engine mapping a built
query to its hits, and an explicit record state for the mem0 store.
Everything the repository itself computes (filter construction, query
construction, record construction, validation, result parsing and the
error paths) is embedded directly from the source.
-/

namespace AIMemory

/-- Embedding vectors, abstracted as rational lists (the code treats them
as opaque payloads produced by the embedding provider). -/
abbrev Vec := List Rat

/-- memory.py, class MemoryType: the enumerated memory type, a str enum
with values "episodic" and "semantic". -/
inductive MemoryType
  | episodic
  | semantic
deriving DecidableEq, Repr

/-- The string value of a MemoryType member (its str content, used both
by the tag filters and by the stored record). -/
def MemoryType.value : MemoryType → String
  | .episodic => "episodic"
  | .semantic => "semantic"

/-- The MemoryType constructor applied to a raw string, as in
MemoryType(doc["memory_type"]): an invalid value raises, modelled as none. -/
def MemoryType.ofValue? (s : String) : Option MemoryType :=
  if s = "episodic" then some .episodic
  else if s = "semantic" then some .semantic
  else none

/-- memory_redis.py line 72: the reserved scope for memories that are not
associated with a user. -/
def SYSTEM_USER_ID : String := "system"

/-- A field type of the redisvl index schema. -/
inductive FieldType
  | text
  | tag
  | vector (algorithm : String) (dims : Nat) (distance_metric : String) (datatype : String)
deriving DecidableEq, Repr

/-- One named field of the index schema. -/
structure SchemaField where
  name : String
  ftype : FieldType
deriving DecidableEq, Repr

/-- The index section plus field list of an IndexSchema dictionary. -/
structure IndexSchemaDef where
  index_name : String
  key_pfx : String
  key_separator : String
  storage_type : String
  fields : List SchemaField
deriving DecidableEq, Repr

/-- memory_redis.py lines 17 to 43: the schema dictionary passed to
IndexSchema.from_dict, embedded literally. -/
def memory_schema : IndexSchemaDef :=
  ⟨"agent_memories", "memory", ":", "json",
   [⟨"content", .text⟩,
    ⟨"memory_type", .tag⟩,
    ⟨"metadata", .text⟩,
    ⟨"created_at", .text⟩,
    ⟨"user_id", .tag⟩,
    ⟨"memory_id", .tag⟩,
    ⟨"embedding", .vector "flat" 1024 "cosine" "float32"⟩]⟩

/-- A redisvl filter expression as built by the Tag DSL in
similar_memory_exists: tag equality and conjunction. -/
inductive FilterExpr
  | tagEq (field value : String)
  | and (l r : FilterExpr)
deriving DecidableEq, Repr

/-- The flat list of (field, value) tag equalities a filter conjoins. -/
def FilterExpr.conjuncts : FilterExpr → List (String × String)
  | .tagEq f v => [(f, v)]
  | .and l r => l.conjuncts ++ r.conjuncts

/-- A VectorRangeQuery as constructed by the code: the query vector, the
result cap, the vector field, the filter (either a Tag DSL expression or
a raw filter string installed by set_filter), the distance threshold, the
requested return fields and the optional dialect. -/
structure VectorRangeQuery where
  vector : Vec
  num_results : Int
  vector_field_name : String
  filter_expression : Option FilterExpr
  raw_filter : Option String
  distance_threshold : Rat
  return_fields : List String
  dialect : Option Nat
deriving Repr

/-- A search hit or mem0 record: a string-keyed dictionary, with field
values modelled as strings. -/
structure Doc where
  fields : List (String × String)
deriving DecidableEq, Repr

/-- Dictionary lookup, doc.get(key): none when the key is absent. -/
def Doc.get? (d : Doc) (k : String) : Option String :=
  (d.fields.find? (fun p => p.1 == k)).map (fun p => p.2)

/-- memory_redis.py lines 85 to 88: the dedup filter. Base conjunction of
user_id and memory_type tag equalities; the thread_id equality is added
under the truthiness guard `if thread_id:`, that is when thread_id is
neither None nor the empty string. The user_id argument is used as given,
with no fallback to SYSTEM_USER_ID. -/
def dedupFilters (user_id : String) (memory_type : MemoryType)
    (thread_id : Option String) : FilterExpr :=
  let base := FilterExpr.and (.tagEq "user_id" user_id) (.tagEq "memory_type" memory_type.value)
  match thread_id with
  | some t => if t = "" then base else .and base (.tagEq "thread_id" t)
  | none => base

/-- memory_redis.py lines 91 to 98: the VectorRangeQuery issued by
similar_memory_exists. -/
def similarMemoryQuery (embed : String → Vec) (content : String)
    (memory_type : MemoryType) (user_id : String) (thread_id : Option String)
    (distance_threshold : Rat) : VectorRangeQuery :=
  ⟨embed content, 1, "embedding",
   some (dedupFilters user_id memory_type thread_id), none,
   distance_threshold, ["id"], none⟩

/-- memory_redis.py lines 75 to 109: the deduplication check. Embeds the
content, issues the range query and reports true exactly when the result
list is non-empty (Python truthiness of the result). The engine parameter
abstracts the Redis vector search backend. Default arguments of the
source (user_id=SYSTEM_USER_ID, thread_id=None, distance_threshold=0.1)
are passed explicitly at call sites. -/
def similar_memory_exists (engine : VectorRangeQuery → List Doc)
    (embed : String → Vec) (content : String) (memory_type : MemoryType)
    (user_id : String) (thread_id : Option String)
    (distance_threshold : Rat) : Bool :=
  !(engine (similarMemoryQuery embed content memory_type user_id thread_id
      distance_threshold)).isEmpty

/-- memory_redis.py lines 143 to 152: the memory_data record built by
store_memory. -/
structure MemoryRecord where
  user_id : String
  content : String
  memory_type : String
  metadata : String
  created_at : String
  embedding : Vec
  memory_id : String
  thread_id : Option String
deriving DecidableEq, Repr

/-- What a store_memory call did: skipped as a duplicate, stored a
record, or had the index write fail (logged and swallowed, a normal
return in the source). -/
inductive StoreOutcome
  | skippedDuplicate
  | stored (rec : MemoryRecord)
  | writeFailed (rec : MemoryRecord)
deriving DecidableEq, Repr

/-- The ambient collaborators of store_memory: the query engine, the
embedding provider, the current timestamp, the fresh ULID, and whether
the index load call succeeds. -/
structure StoreEnv where
  engine : VectorRangeQuery → List Doc
  embed : String → Vec
  now : String
  fresh_ulid : String
  load_ok : Bool

/-- memory_redis.py lines 118 to 160: store_memory. Defaults the metadata
to the string of an empty JSON object, runs the deduplication check first
(with the default 0.1 threshold) and returns without writing when it
reports a similar memory; otherwise embeds the content, builds the record
with the user_id fallback `user_id or SYSTEM_USER_ID`, and loads it into
the index, returning normally (with the index unchanged) when the load
raises. The index is modelled as the list of loaded records. -/
def store_memory (env : StoreEnv) (content : String) (memory_type : MemoryType)
    (user_id : String) (thread_id : Option String) (metadata : Option String)
    (index : List MemoryRecord) : StoreOutcome × List MemoryRecord :=
  let metadata := metadata.getD "\x7b\x7d"
  if similar_memory_exists env.engine env.embed content memory_type user_id
      thread_id (1/10) then
    (.skippedDuplicate, index)
  else
    let vectors := env.embed content
    let memory_data : MemoryRecord :=
      ⟨if user_id = "" then SYSTEM_USER_ID else user_id, content,
       memory_type.value, metadata, env.now, vectors, env.fresh_ulid, thread_id⟩
    if env.load_ok then (.stored memory_data, index ++ [memory_data])
    else (.writeFailed memory_data, index)

/-- The memory_type argument of retrieve_memories:
Union[Optional[MemoryType], List[MemoryType]]. -/
inductive MemoryTypeArg
  | none
  | single (t : MemoryType)
  | listOf (ts : List MemoryType)
deriving DecidableEq, Repr

/-- memory_redis.py lines 193 to 204: the filter strings built by
retrieve_memories, in source order. Always the user_id clause (with the
`user_id or SYSTEM_USER_ID` fallback); then, under the truthiness guard
`if memory_type:`, either the single exact tag clause or the OR-joined
clause for a non-empty list; then, under `if thread_id:`, the thread_id
clause for a non-empty thread id. -/
def retrieveFilterStrings (user_id : String) (memory_type : MemoryTypeArg)
    (thread_id : Option String) : List String :=
  let base := ["@user_id:\x7b" ++ (if user_id = "" then SYSTEM_USER_ID else user_id) ++ "\x7d"]
  let base := base ++
    (match memory_type with
     | .none => []
     | .single t => ["@memory_type:\x7b" ++ t.value ++ "\x7d"]
     | .listOf ts =>
        if ts = [] then []
        else ["@memory_type:\x7b" ++ String.intercalate "|" (ts.map MemoryType.value) ++ "\x7d"])
  base ++
    (match thread_id with
     | some t => if t = "" then [] else ["@thread_id:\x7b" ++ t ++ "\x7d"]
     | Option.none => [])

/-- memory_redis.py lines 175 to 204: the VectorRangeQuery issued by
retrieve_memories, with the space-joined filter string installed by
set_filter. -/
def retrieveQuery (embed_query : String → Vec) (query : String)
    (memory_type : MemoryTypeArg) (user_id : String) (thread_id : Option String)
    (distance_threshold : Rat) (limit : Int) : VectorRangeQuery :=
  ⟨embed_query query, limit, "embedding", Option.none,
   some (String.intercalate " " (retrieveFilterStrings user_id memory_type thread_id)),
   distance_threshold,
   ["content", "memory_type", "metadata", "created_at", "memory_id", "thread_id", "user_id"],
   some 2⟩

/-- memory.py, class StoredMemory, as populated by retrieve_memories. -/
structure StoredMemory where
  id : String
  memory_id : String
  user_id : Option String
  thread_id : Option String
  memory_type : Option MemoryType
  content : String
  created_at : String
  metadata : String
deriving DecidableEq, Repr

/-- memory_redis.py lines 213 to 222: building one StoredMemory from a
hit. Bracket access on a missing key raises (none aborts the parse),
doc.get("thread_id", None) does not, and an invalid memory_type value
raises in the MemoryType constructor; any such failure is caught by the
surrounding try and the hit is skipped. -/
def parseStoredMemory (doc : Doc) : Option StoredMemory := do
  let id ← doc.get? "id"
  let memory_id ← doc.get? "memory_id"
  let user_id ← doc.get? "user_id"
  let thread_id := doc.get? "thread_id"
  let mt ← doc.get? "memory_type"
  let memory_type ← MemoryType.ofValue? mt
  let content ← doc.get? "content"
  let created_at ← doc.get? "created_at"
  let metadata ← doc.get? "metadata"
  pure ⟨id, memory_id, some user_id, thread_id, some memory_type, content, created_at, metadata⟩

/-- memory_redis.py lines 162 to 227: retrieve_memories. Issues the
built query against the engine and parses each hit, dropping (with a
logged error) every hit whose parse raises and keeping the rest. -/
def retrieve_memories (engine : VectorRangeQuery → List Doc)
    (embed_query : String → Vec) (query : String) (memory_type : MemoryTypeArg)
    (user_id : String) (thread_id : Option String) (distance_threshold : Rat)
    (limit : Int) : List StoredMemory :=
  (engine (retrieveQuery embed_query query memory_type user_id thread_id
      distance_threshold limit)).filterMap parseStoredMemory

/-- memory_manager.py: the error taxonomy. ValidationError and
ConnectionError both derive from MemoryManagerError; manager is the base
MemoryManagerError raised directly. -/
inductive ManagerError
  | validation (msg : String)
  | connection (msg : String)
  | manager (msg : String)
deriving DecidableEq, Repr

/-- Python str.strip(): drops leading and trailing whitespace. -/
def pyStrip (s : String) : String :=
  ⟨((s.toList.dropWhile Char.isWhitespace).reverse.dropWhile Char.isWhitespace).reverse⟩

/-- Python str.lower(), on the ASCII range the code exercises. -/
def pyLower (s : String) : String :=
  ⟨s.toList.map Char.toLower⟩

/-- Substring containment, the Python `needle in hay` test on strings. -/
def strContains (hay needle : String) : Bool :=
  hay.toList.tails.any (fun t => needle.toList.isPrefixOf t)

/-- memory_manager.py lines 345 to 352: one formatted memory record of
get_memories (the relevance score is carried as its printed value since
field values are modelled as strings). -/
structure FormattedMemory where
  id : String
  content : String
  user_id : String
  metadata : String
  created_at : String
  relevance_score : String
deriving DecidableEq, Repr

/-- memory_manager.py lines 343 to 353: formatting one search hit. -/
def format_memory (user_id : String) (doc : Doc) : FormattedMemory :=
  ⟨(doc.get? "id").getD "unknown",
   (doc.get? "memory").getD ((doc.get? "content").getD ""),
   user_id,
   (doc.get? "metadata").getD "\x7b\x7d",
   (doc.get? "created_at").getD "",
   (doc.get? "score").getD "0.0"⟩

/-- The collaborators of get_memories: the mem0 search call (taking the
stripped query, the user id and the effective limit, either returning
hits or raising with a message) and the health of the Redis connection
as observed by validate_connection after a failure. The manager is taken
as initialized and the pre-call connection check as passing. -/
structure SearchEnv where
  search : String → String → Int → Except String (List Doc)
  conn_healthy : Bool

/-- memory_manager.py lines 290 to 370: get_memories. Validates user_id
(two-step, as in the source), query and limit; caps the limit at 100;
calls mem0 search with the stripped query and the capped limit; formats
the hits on success; on failure raises ConnectionError when the
connection is unhealthy, returns the empty list when the lowercased
message contains "not found" or "no memories", and raises
MemoryManagerError otherwise. -/
def get_memories (env : SearchEnv) (query : String) (user_id : String)
    (limit : Int) : Except ManagerError (List FormattedMemory) :=
  if user_id = "" then .error (.validation "user_id must be a non-empty string")
  else if pyStrip user_id = "" then .error (.validation "user_id cannot be empty or whitespace")
  else if query = "" then .error (.validation "query must be a non-empty string")
  else if limit ≤ 0 then .error (.validation "limit must be a positive integer")
  else
    let lim := if 100 < limit then 100 else limit
    match env.search (pyStrip query) user_id lim with
    | .ok results => .ok (results.map (format_memory user_id))
    | .error msg =>
      if env.conn_healthy = false then
        .error (.connection ("Redis connection lost during search operation: " ++ msg))
      else if strContains (pyLower msg) "not found" ∨ strContains (pyLower msg) "no memories" then
        .ok []
      else
        .error (.manager ("Failed to retrieve memories: " ++ msg))

/-- The mem0 record store backing the manager, modelled as the list of
its records (each a dictionary carrying at least id and user_id). -/
structure Mem0State where
  records : List Doc
deriving DecidableEq, Repr

/-- The mem0 get_all(user_id) read: the records of that user. -/
def mem0_get_all (s : Mem0State) (user_id : String) : List Doc :=
  s.records.filter (fun d => d.get? "user_id" == some user_id)

/-- The mem0 delete(memory_id) write: removes the records carrying the
given primary id. -/
def mem0_delete (s : Mem0State) (memory_id : String) : Mem0State :=
  ⟨s.records.filter (fun d => !(d.get? "id" == some memory_id))⟩

/-- memory_manager.py lines 444 to 471: _verify_memory_ownership. Scans
the get_all result for a record whose id equals the given memory_id; when
the read itself raises, assumes ownership (fail open) and returns true. -/
def verify_memory_ownership (read_result : Except String (List Doc))
    (memory_id : String) : Bool :=
  match read_result with
  | .error _ => true
  | .ok mems => mems.any (fun d => d.get? "id" == some memory_id)

deriving instance DecidableEq for Except

/-- What a delete_memory call produced: its result (a boolean or a raised
manager error), the memory id the mem0 delete was invoked with (none when
it was not invoked), and the record store afterwards. -/
structure DeleteOutcome where
  result : Except ManagerError Bool
  delete_called : Option String
  state : Mem0State
deriving DecidableEq, Repr

/-- memory_manager.py lines 372 to 442: delete_memory. Validates user_id
and memory_id (two-step each, as in the source); performs the ownership
verification read (read_error injects a raising get_all); when ownership
is not confirmed returns false without invoking the mem0 delete; when it
is confirmed invokes the mem0 delete on the stripped memory_id (the mem0
response is modelled as a plain success, which the source maps to true).
The manager is taken as initialized and the connection as healthy. -/
def delete_memory (s : Mem0State) (read_error : Option String)
    (memory_id : String) (user_id : String) : DeleteOutcome :=
  if user_id = "" then ⟨.error (.validation "user_id must be a non-empty string"), none, s⟩
  else if pyStrip user_id = "" then ⟨.error (.validation "user_id cannot be empty or whitespace"), none, s⟩
  else if memory_id = "" then ⟨.error (.validation "memory_id must be a non-empty string"), none, s⟩
  else if pyStrip memory_id = "" then ⟨.error (.validation "memory_id cannot be empty or whitespace"), none, s⟩
  else
    let read : Except String (List Doc) :=
      match read_error with
      | some e => .error e
      | none => .ok (mem0_get_all s user_id)
    if verify_memory_ownership read memory_id then
      ⟨.ok true, some (pyStrip memory_id), mem0_delete s (pyStrip memory_id)⟩
    else
      ⟨.ok false, none, s⟩

/-- A Python dictionary with string keys and values, as an ordered
association list. -/
abbrev Metadata := List (String × String)

/-- Python dict assignment d[k] = v: replaces the value in place when the
key exists, appends the entry otherwise. -/
def dictSet : Metadata → String → String → Metadata
  | [], k, v => [(k, v)]
  | (k0, v0) :: rest, k, v =>
    if k0 = k then (k, v) :: rest else (k0, v0) :: dictSet rest k v

/-- Python dict lookup d.get(k). -/
def dictGet? : Metadata → String → Option String
  | [], _ => none
  | (k0, v0) :: rest, k => if k0 = k then some v0 else dictGet? rest k

/-- The observable effect of the metadata handling of add_memory on the
dictionaries involved: the dictionary actually passed on to mem0 add, and
the caller-supplied dictionary object after the call (none when the
caller passed None). -/
structure AddMetadataEffect where
  used : Metadata
  caller_after : Option Metadata
deriving DecidableEq, Repr

/-- memory_manager.py lines 246 to 263: the metadata handling of
add_memory, with Python object aliasing made explicit. The expression
`metadata or {}` yields the caller-supplied dictionary object itself
whenever it is truthy (non-None and non-empty), so the subsequent
timestamp and source assignments mutate the caller-supplied dictionary;
for a None or empty metadata a fresh dictionary receives them and the
caller-supplied object (if any) is left untouched. -/
def add_memory_metadata_update (now : String) (metadata : Option Metadata) :
    AddMetadataEffect :=
  let stamp := fun (m : Metadata) => dictSet (dictSet m "timestamp" now) "source" "mcp_server"
  match metadata with
  | none => ⟨stamp [], none⟩
  | some m => if m = [] then ⟨stamp [], some []⟩ else ⟨stamp m, some (stamp m)⟩

/-- The conjunct list of the dedup filter: user_id and memory_type
equalities, plus the thread_id equality for a provided non-empty
thread id. -/
theorem dedupFilters_conjuncts (u : String) (mt : MemoryType) (tid : Option String) :
    (dedupFilters u mt tid).conjuncts =
      [("user_id", u), ("memory_type", mt.value)] ++
        (match tid with
         | some t => if t = "" then [] else [("thread_id", t)]
         | none => []) := by
  cases tid with
  | none => rfl
  | some t =>
    by_cases ht : t = "" <;> simp [dedupFilters, FilterExpr.conjuncts, ht]

/-- A list is truthy in Python exactly when it is non-empty. -/
theorem not_isEmpty_iff_ne_nil {α : Type} (l : List α) : (!l.isEmpty) = true ↔ l ≠ [] := by
  cases l <;> simp

/-- Claim C2: the deduplication check embeds the content and issues a
vector range query with num_results 1, the given distance threshold and
return field id, under a filter conjoining exactly the user_id equality
and the memory_type equality, with the thread_id equality conjoined
exactly when a thread id is provided (non-None and non-empty: the
truthiness the source guard `if thread_id:` tests); it returns true if
and only if the query returns at least one match. -/
theorem c2_similar_memory_exists_contract
    (engine : VectorRangeQuery → List Doc) (embed : String → Vec)
    (content : String) (mt : MemoryType) (user_id : String)
    (thread_id : Option String) (threshold : Rat) :
    (similarMemoryQuery embed content mt user_id thread_id threshold).vector = embed content ∧
    (similarMemoryQuery embed content mt user_id thread_id threshold).num_results = 1 ∧
    (similarMemoryQuery embed content mt user_id thread_id threshold).distance_threshold = threshold ∧
    (similarMemoryQuery embed content mt user_id thread_id threshold).return_fields = ["id"] ∧
    (∃ f, (similarMemoryQuery embed content mt user_id thread_id threshold).filter_expression = some f ∧
      f.conjuncts =
        [("user_id", user_id), ("memory_type", mt.value)] ++
          (match thread_id with
           | some t => if t = "" then [] else [("thread_id", t)]
           | none => []) ∧
      (∀ t, ("thread_id", t) ∈ f.conjuncts ↔ (thread_id = some t ∧ t ≠ ""))) ∧
    (similar_memory_exists engine embed content mt user_id thread_id threshold = true ↔
      engine (similarMemoryQuery embed content mt user_id thread_id threshold) ≠ []) := by
  refine ⟨rfl, rfl, rfl, rfl,
    ⟨dedupFilters user_id mt thread_id, rfl, dedupFilters_conjuncts user_id mt thread_id, ?_⟩, ?_⟩
  · intro t
    rw [dedupFilters_conjuncts]
    cases thread_id with
    | none => simp
    | some t0 =>
      by_cases ht0 : t0 = "" <;> simp [ht0] <;> aesop
  · exact not_isEmpty_iff_ne_nil _

/-- Claim C3: store_memory runs the deduplication check first and, when
it reports a similar memory, returns with the index unchanged (a silent
skip); otherwise it writes, via the index load, a record carrying the
fresh memory id, the current timestamp and the empty-object metadata
default; a failing load is logged and swallowed: the call still returns
normally (the outcome is a plain value, not an exception) and the index
is unchanged. -/
theorem c3_store_memory_contract
    (env : StoreEnv) (content : String) (mt : MemoryType) (user_id : String)
    (thread_id : Option String) (metadata : Option String) (index : List MemoryRecord) :
    (similar_memory_exists env.engine env.embed content mt user_id thread_id (1/10) = true →
      store_memory env content mt user_id thread_id metadata index = (.skippedDuplicate, index)) ∧
    (similar_memory_exists env.engine env.embed content mt user_id thread_id (1/10) = false →
      ∃ rec : MemoryRecord,
        rec.memory_id = env.fresh_ulid ∧
        rec.created_at = env.now ∧
        rec.metadata = metadata.getD "\x7b\x7d" ∧
        rec.content = content ∧
        rec.memory_type = mt.value ∧
        (env.load_ok = true →
          store_memory env content mt user_id thread_id metadata index = (.stored rec, index ++ [rec])) ∧
        (env.load_ok = false →
          store_memory env content mt user_id thread_id metadata index = (.writeFailed rec, index))) := by
  constructor
  · intro h
    simp only [one_div] at h
    simp [store_memory, h]
  · intro h
    simp only [one_div] at h
    refine ⟨⟨if user_id = "" then SYSTEM_USER_ID else user_id, content, mt.value,
      metadata.getD "\x7b\x7d", env.now, env.embed content, env.fresh_ulid, thread_id⟩,
      rfl, rfl, rfl, rfl, rfl, ?_, ?_⟩ <;>
      intro hl <;> simp [store_memory, h, hl]

/-- A concrete store environment: the engine finds no hits, the embedder
returns the empty vector, and the index load succeeds. -/
def envNil : StoreEnv := ⟨fun _ => [], fun _ => [], "t0", "ulid0", true⟩

/-- Claim C1: evaluation at the failing input user_id = "". The dedup
filter matches user_id equal to the empty string, while the record the
same store call writes carries user_id "system" and the retrieval filter
for the same caller-supplied scope matches user_id "system"; the two
values differ, so the write-time dedup scope and the stored/read scope
disagree at this input. -/
theorem c1_dedup_scope_diverges_at_empty_user :
    ("user_id", "") ∈ (dedupFilters "" MemoryType.episodic none).conjuncts ∧
    (similarMemoryQuery envNil.embed "c" MemoryType.episodic "" none (1/10)).filter_expression
      = some (dedupFilters "" MemoryType.episodic none) ∧
    (store_memory envNil "c" MemoryType.episodic "" none none []).2.map MemoryRecord.user_id
      = [SYSTEM_USER_ID] ∧
    retrieveFilterStrings "" MemoryTypeArg.none none = ["@user_id:\x7bsystem\x7d"] ∧
    ("" : String) ≠ SYSTEM_USER_ID := by
  exact ⟨by decide, rfl, by decide, by decide, by decide⟩

/-- Claim C5: the retrieval query embeds the query text and is issued
with the given limit as num_results, the given distance threshold, the
seven documented return fields, and the space-joined filter whose first
clause is always the user_id clause; a single memory_type adds the exact
tag clause, a non-empty list adds the OR-joined clause, and a provided
non-empty thread id adds the thread_id clause. -/
theorem c5_retrieve_query_contract
    (embed_query : String → Vec) (query : String) (mt : MemoryTypeArg)
    (user_id : String) (thread_id : Option String) (threshold : Rat) (limit : Int) :
    (retrieveQuery embed_query query mt user_id thread_id threshold limit).vector
      = embed_query query ∧
    (retrieveQuery embed_query query mt user_id thread_id threshold limit).num_results = limit ∧
    (retrieveQuery embed_query query mt user_id thread_id threshold limit).distance_threshold
      = threshold ∧
    (retrieveQuery embed_query query mt user_id thread_id threshold limit).return_fields
      = ["content", "memory_type", "metadata", "created_at", "memory_id", "thread_id", "user_id"] ∧
    (retrieveQuery embed_query query mt user_id thread_id threshold limit).raw_filter
      = some (String.intercalate " " (retrieveFilterStrings user_id mt thread_id)) ∧
    retrieveFilterStrings user_id mt thread_id =
      ("@user_id:\x7b" ++ (if user_id = "" then SYSTEM_USER_ID else user_id) ++ "\x7d") ::
        ((match mt with
          | .none => []
          | .single t => ["@memory_type:\x7b" ++ t.value ++ "\x7d"]
          | .listOf ts =>
            if ts = [] then []
            else ["@memory_type:\x7b" ++ String.intercalate "|" (ts.map MemoryType.value) ++ "\x7d"]) ++
         (match thread_id with
          | some t => if t = "" then [] else ["@thread_id:\x7b" ++ t ++ "\x7d"]
          | none => [])) ∧
    (retrieveFilterStrings user_id mt thread_id).head?
      = some ("@user_id:\x7b" ++ (if user_id = "" then SYSTEM_USER_ID else user_id) ++ "\x7d") ∧
    (∀ t, mt = MemoryTypeArg.single t →
      ("@memory_type:\x7b" ++ t.value ++ "\x7d") ∈ retrieveFilterStrings user_id mt thread_id) ∧
    (∀ ts, mt = MemoryTypeArg.listOf ts → ts ≠ [] →
      ("@memory_type:\x7b" ++ String.intercalate "|" (ts.map MemoryType.value) ++ "\x7d")
        ∈ retrieveFilterStrings user_id mt thread_id) ∧
    (∀ t, thread_id = some t → t ≠ "" →
      ("@thread_id:\x7b" ++ t ++ "\x7d") ∈ retrieveFilterStrings user_id mt thread_id) := by
  refine ⟨rfl, rfl, rfl, rfl, rfl, ?_, ?_, ?_, ?_, ?_⟩
  · simp only [retrieveFilterStrings]
    cases mt <;> cases thread_id <;> simp
  · simp only [retrieveFilterStrings]
    cases mt <;> cases thread_id <;> simp
  · intro t hmt
    subst hmt
    cases thread_id <;> simp [retrieveFilterStrings]
  · intro ts hmt hts
    subst hmt
    cases thread_id <;> simp [retrieveFilterStrings, hts]
  · intro t htid ht
    subst htid
    cases mt <;> simp [retrieveFilterStrings, ht]

/-- Claim C8: retrieve_memories parses each hit the engine returns; a hit
that fails to parse is dropped while every hit that parses is returned,
and the call as a whole still returns a plain list (the parse failure of
one record never fails the call). -/
theorem c8_retrieve_drops_unparsable_hits
    (engine : VectorRangeQuery → List Doc) (embed_query : String → Vec)
    (query : String) (mt : MemoryTypeArg) (user_id : String)
    (thread_id : Option String) (threshold : Rat) (limit : Int) :
    retrieve_memories engine embed_query query mt user_id thread_id threshold limit
      = (engine (retrieveQuery embed_query query mt user_id thread_id threshold limit)).filterMap
          parseStoredMemory ∧
    (∀ d ∈ engine (retrieveQuery embed_query query mt user_id thread_id threshold limit),
      ∀ m, parseStoredMemory d = some m →
        m ∈ retrieve_memories engine embed_query query mt user_id thread_id threshold limit) ∧
    (∀ m ∈ retrieve_memories engine embed_query query mt user_id thread_id threshold limit,
      ∃ d ∈ engine (retrieveQuery embed_query query mt user_id thread_id threshold limit),
        parseStoredMemory d = some m) := by
  refine ⟨rfl, ?_, ?_⟩
  · intro d hd m hm
    simp only [retrieve_memories, List.mem_filterMap]
    exact ⟨d, hd, hm⟩
  · intro m hm
    simpa only [retrieve_memories, List.mem_filterMap] using hm

/-- Claim C6, counterexample: the persisted schema declares exactly seven
fields and thread_id is not among them, so the field set the claim states
(which includes a thread_id tag field) is not the declared one. -/
theorem c6_schema_thread_id_missing_cex :
    memory_schema.fields.map SchemaField.name =
      ["content", "memory_type", "metadata", "created_at", "user_id", "memory_id", "embedding"] ∧
    "thread_id" ∉ memory_schema.fields.map SchemaField.name := by
  decide

/-- Claim C6, amended: the schema uses record key prefix "memory" and
declares exactly the fields content, memory_type, metadata, created_at,
user_id, memory_id and an embedding vector field (float32, flat index,
cosine distance) whose dimension is the constant 1024; there is no
thread_id field, although the retrieval query requests thread_id as a
return field and the dedup filter can constrain thread_id. -/
theorem c6_schema_contents :
    memory_schema.key_pfx = "memory" ∧
    memory_schema.fields =
      [⟨"content", .text⟩, ⟨"memory_type", .tag⟩, ⟨"metadata", .text⟩,
       ⟨"created_at", .text⟩, ⟨"user_id", .tag⟩, ⟨"memory_id", .tag⟩,
       ⟨"embedding", .vector "flat" 1024 "cosine" "float32"⟩] ∧
    "thread_id" ∉ memory_schema.fields.map SchemaField.name ∧
    "thread_id" ∈ (retrieveQuery (fun _ => []) "q" MemoryTypeArg.none "u" none (1/10) 5).return_fields ∧
    ("thread_id", "th") ∈ (dedupFilters "u" MemoryType.episodic (some "th")).conjuncts := by
  refine ⟨by decide, by decide, by decide, by decide, by decide⟩

/-- Claim C7, counterexample: the redis-layer retrieval neither validates
nor caps its limit argument: at limit 200 the issued query carries
num_results 200 (not capped to 100), and at limit 0 the call returns
normally (the empty list) instead of raising a validation error. -/
theorem c7_redis_retrieve_no_limit_cap_cex :
    (retrieveQuery (fun _ => []) "q" MemoryTypeArg.none "u" none (1/10) 200).num_results = 200 ∧
    ¬ ((200 : Int) ≤ 100) ∧
    retrieve_memories (fun _ => []) (fun _ => []) "q" MemoryTypeArg.none "u" none (1/10) 0 = [] := by
  refine ⟨rfl, by decide, rfl⟩

/-- Claim C7, amended: in the manager layer, get_memories raises a
ValidationError for a non-positive limit, caps a limit above 100 to 100
before calling the search, and (whenever the search honours its limit)
returns at most min(limit, 100) records; the redis-layer retrieve applies
no such validation or cap. -/
theorem c7_get_memories_limit_contract
    (env : SearchEnv) (query user_id : String) (limit : Int)
    (hu : user_id ≠ "") (hu2 : pyStrip user_id ≠ "") (hq : query ≠ "") :
    (limit ≤ 0 →
      get_memories env query user_id limit
        = .error (.validation "limit must be a positive integer")) ∧
    (100 < limit →
      get_memories env query user_id limit = get_memories env query user_id 100) ∧
    (∀ res, get_memories env query user_id limit = .ok res →
      (∀ l docs, env.search (pyStrip query) user_id l = .ok docs → docs.length ≤ l.toNat) →
      res.length ≤ min limit.toNat 100) := by
  refine ⟨?_, ?_, ?_⟩
  · intro h
    simp [get_memories, hu, hu2, hq, h]
  · intro h
    have h0 : ¬ limit ≤ 0 := by omega
    have hA : ¬ (100 : Int) ≤ 0 := by decide
    simp only [get_memories, if_neg hu, if_neg hu2, if_neg hq, if_neg h0, if_neg hA]
    have hsame : (if 100 < limit then (100 : Int) else limit)
        = (if (100 : Int) < 100 then (100 : Int) else 100) := by
      rw [if_pos h, if_neg (by decide : ¬ (100 : Int) < 100)]
    rw [hsame]
  · intro res hres hbound
    by_cases h0 : limit ≤ 0
    · simp [get_memories, hu, hu2, hq, h0] at hres
    · have hlim : (if 100 < limit then (100 : Int) else limit).toNat = min limit.toNat 100 := by
        by_cases hc : 100 < limit
        · simp only [if_pos hc]; omega
        · simp only [if_neg hc]; omega
      cases hs : env.search (pyStrip query) user_id (if 100 < limit then (100 : Int) else limit) with
      | ok docs =>
        simp only [get_memories, if_neg hu, if_neg hu2, if_neg hq, if_neg h0, hs,
          Except.ok.injEq] at hres
        subst hres
        rw [List.length_map, ← hlim]
        exact hbound _ _ hs
      | error msg =>
        simp only [get_memories, if_neg hu, if_neg hu2, if_neg hq, if_neg h0, hs] at hres
        by_cases hh : env.conn_healthy = false
        · rw [if_pos hh] at hres
          exact absurd hres (by simp)
        · rw [if_neg hh] at hres
          by_cases hc : (strContains (pyLower msg) "not found" = true
              ∨ strContains (pyLower msg) "no memories" = true)
          · rw [if_pos hc] at hres
            simp only [Except.ok.injEq] at hres
            subst hres
            simp
          · rw [if_neg hc] at hres
            exact absurd hres (by simp)

/-- Claim C7, witness: at limit 0 the manager raises a validation error. -/
theorem c7_get_memories_limit_contract_witness :
    get_memories ⟨fun _ _ _ => Except.ok [], true⟩ "q" "u" 0
      = .error (.validation "limit must be a positive integer") :=
  (c7_get_memories_limit_contract ⟨fun _ _ _ => Except.ok [], true⟩ "q" "u" 0
    (by decide) (by decide) (by decide)).1 (by decide)

/-- Claim C4: for a delete call that passes validation and whose
ownership-verification read succeeds, when no record with the given
memory id exists among the given user records the call returns false,
the mem0 delete is not invoked and the record store is unchanged; when a
matching owned record exists the mem0 delete is invoked with the
(stripped) memory id and the call returns true. -/
theorem c4_delete_memory_ownership_contract
    (s : Mem0State) (memory_id user_id : String)
    (hu : user_id ≠ "") (hu2 : pyStrip user_id ≠ "")
    (hm : memory_id ≠ "") (hm2 : pyStrip memory_id ≠ "") :
    ((mem0_get_all s user_id).any (fun d => d.get? "id" == some memory_id) = false →
      delete_memory s none memory_id user_id = ⟨.ok false, none, s⟩) ∧
    ((mem0_get_all s user_id).any (fun d => d.get? "id" == some memory_id) = true →
      (delete_memory s none memory_id user_id).delete_called = some (pyStrip memory_id) ∧
      (delete_memory s none memory_id user_id).result = .ok true) := by
  constructor
  · intro h
    simp [delete_memory, hu, hu2, hm, hm2, verify_memory_ownership, h]
  · intro h
    constructor <;>
      simp [delete_memory, hu, hu2, hm, hm2, verify_memory_ownership, h]

/-- Claim C4, witness: with a single record owned by alice, deleting it
as bob returns false, invokes no delete and leaves the store unchanged,
while deleting it as alice invokes the delete on that memory id. -/
theorem c4_delete_memory_ownership_contract_witness :
    delete_memory ⟨[⟨[("id", "m1"), ("user_id", "alice")]⟩]⟩ none "m1" "bob"
      = ⟨.ok false, none, ⟨[⟨[("id", "m1"), ("user_id", "alice")]⟩]⟩⟩ ∧
    (delete_memory ⟨[⟨[("id", "m1"), ("user_id", "alice")]⟩]⟩ none "m1" "alice").delete_called
      = some "m1" := by
  constructor
  · exact (c4_delete_memory_ownership_contract ⟨[⟨[("id", "m1"), ("user_id", "alice")]⟩]⟩
      "m1" "bob" (by decide) (by decide) (by decide) (by decide)).1 (by decide)
  · exact (((c4_delete_memory_ownership_contract ⟨[⟨[("id", "m1"), ("user_id", "alice")]⟩]⟩
      "m1" "alice" (by decide) (by decide) (by decide) (by decide)).2 (by decide)).1).trans
      (by decide)

/-- Looking up the key just assigned yields the assigned value. -/
theorem dictGet?_dictSet_self (d : Metadata) (k v : String) :
    dictGet? (dictSet d k v) k = some v := by
  induction d with
  | nil => simp [dictSet, dictGet?]
  | cons p rest ih =>
    obtain ⟨k0, v0⟩ := p
    by_cases h : k0 = k <;> simp [dictSet, dictGet?, h, ih]

/-- Assigning one key leaves the lookup of every other key unchanged. -/
theorem dictGet?_dictSet_ne (d : Metadata) (k v k' : String) (h : k' ≠ k) :
    dictGet? (dictSet d k v) k' = dictGet? d k' := by
  have hk : ¬ k = k' := fun hk => h hk.symm
  induction d with
  | nil => simp [dictSet, dictGet?, hk]
  | cons p rest ih =>
    obtain ⟨k0, v0⟩ := p
    by_cases h0 : k0 = k
    · subst h0
      simp [dictSet, dictGet?, hk]
    · simp [dictSet, dictGet?, h0, ih]

/-- Claim C9, counterexample: a non-None empty metadata dictionary passes
validation, yet after the call the caller-supplied dictionary is still
empty: it gained neither a timestamp key nor a source key (the fresh
dictionary produced by `metadata or {}` received them instead). -/
theorem c9_empty_metadata_not_mutated_cex :
    (add_memory_metadata_update "t0" (some [])).caller_after = some [] ∧
    dictGet? [] "timestamp" = none ∧
    dictGet? [] "source" = none ∧
    dictGet? (add_memory_metadata_update "t0" (some [])).used "timestamp" = some "t0" := by
  decide

/-- Claim C9, amended: for a non-None and non-empty metadata dictionary,
the caller-supplied dictionary object is mutated in place before the
write: afterwards it is exactly the dictionary passed on to the mem0 add,
it carries timestamp and source entries, and every other key keeps its
original value; an empty dictionary is left untouched. -/
theorem c9_metadata_mutation_contract (now : String) (m : Metadata) (hm : m ≠ []) :
    (add_memory_metadata_update now (some m)).caller_after
      = some (dictSet (dictSet m "timestamp" now) "source" "mcp_server") ∧
    (add_memory_metadata_update now (some m)).caller_after
      = some (add_memory_metadata_update now (some m)).used ∧
    (∀ a, (add_memory_metadata_update now (some m)).caller_after = some a →
      dictGet? a "timestamp" = some now ∧
      dictGet? a "source" = some "mcp_server" ∧
      ∀ k, k ≠ "timestamp" → k ≠ "source" → dictGet? a k = dictGet? m k) := by
  refine ⟨by simp [add_memory_metadata_update, hm], by simp [add_memory_metadata_update, hm], ?_⟩
  intro a ha
  simp only [add_memory_metadata_update, if_neg hm] at ha
  simp only [Option.some.injEq] at ha
  subst ha
  refine ⟨?_, dictGet?_dictSet_self _ _ _, ?_⟩
  · rw [dictGet?_dictSet_ne _ _ _ _ (by decide), dictGet?_dictSet_self]
  · intro k hk1 hk2
    rw [dictGet?_dictSet_ne _ _ _ _ hk2, dictGet?_dictSet_ne _ _ _ _ hk1]

/-- Claim C9, witness: a one-entry metadata dictionary is mutated in
place, ending with its original entry plus timestamp and source. -/
theorem c9_metadata_mutation_contract_witness :
    (add_memory_metadata_update "t0" (some [("a", "1")])).caller_after
      = some [("a", "1"), ("timestamp", "t0"), ("source", "mcp_server")] :=
  (c9_metadata_mutation_contract "t0" [("a", "1")] (by decide)).1.trans (by decide)

/-- Claim C10, counterexample: a search failure whose message is
"NOT FOUND" does not contain the lowercase phrases "not found" or
"no memories", so under the claim it should raise MemoryManagerError;
the code lowercases the message first and returns the empty list. -/
theorem c10_case_insensitive_not_found_cex :
    get_memories ⟨fun _ _ _ => Except.error "NOT FOUND", true⟩ "q" "u" 5 = .ok [] ∧
    strContains "NOT FOUND" "not found" = false ∧
    strContains "NOT FOUND" "no memories" = false := by
  decide

/-- Claim C10, amended: when the search raises and the connection is
still healthy, the call returns the empty list exactly when the
lowercased message contains "not found" or "no memories" and raises
MemoryManagerError otherwise; with an unhealthy connection it raises
ConnectionError. -/
theorem c10_get_memories_search_failure_contract
    (env : SearchEnv) (query user_id : String) (limit : Int) (msg : String)
    (hu : user_id ≠ "") (hu2 : pyStrip user_id ≠ "") (hq : query ≠ "")
    (h0 : ¬ limit ≤ 0)
    (hs : env.search (pyStrip query) user_id (if 100 < limit then 100 else limit)
      = .error msg) :
    (env.conn_healthy = false →
      get_memories env query user_id limit
        = .error (.connection ("Redis connection lost during search operation: " ++ msg))) ∧
    (env.conn_healthy = true →
      (strContains (pyLower msg) "not found" = true
          ∨ strContains (pyLower msg) "no memories" = true →
        get_memories env query user_id limit = .ok []) ∧
      (strContains (pyLower msg) "not found" = false
          ∧ strContains (pyLower msg) "no memories" = false →
        get_memories env query user_id limit
          = .error (.manager ("Failed to retrieve memories: " ++ msg)))) := by
  constructor
  · intro hh
    simp only [get_memories, if_neg hu, if_neg hu2, if_neg hq, if_neg h0, hs]
    rw [if_pos hh]
  · intro hh
    have hh' : ¬ env.conn_healthy = false := by simp [hh]
    constructor
    · intro hc
      simp only [get_memories, if_neg hu, if_neg hu2, if_neg hq, if_neg h0, hs]
      rw [if_neg hh', if_pos hc]
    · intro hc
      have hc' : ¬ (strContains (pyLower msg) "not found" = true
          ∨ strContains (pyLower msg) "no memories" = true) := by
        simp [hc.1, hc.2]
      simp only [get_memories, if_neg hu, if_neg hu2, if_neg hq, if_neg h0, hs]
      rw [if_neg hh', if_neg hc']

/-- Claim C10, witness: a healthy-connection failure whose lowercased
message contains "not found" yields the empty list. -/
theorem c10_get_memories_search_failure_contract_witness :
    get_memories ⟨fun _ _ _ => Except.error "Entity Not Found", true⟩ "q" "u" 5 = .ok [] :=
  ((c10_get_memories_search_failure_contract ⟨fun _ _ _ => Except.error "Entity Not Found", true⟩
      "q" "u" 5 "Entity Not Found" (by decide) (by decide) (by decide) (by decide) rfl).2
    rfl).1 (Or.inl (by decide))

end AIMemory
